import Mathlib

/-
  Verification development for the mcp-pants repository.

  The repository is a multi-server MCP session manager and tool-dispatch
  bridge (src/mcp-client.py), a schema translator for the Anthropic model
  API (src/anthropic_client.py), and an HTTP front end (src/mcp_ui.py).
  Below, the data model and the operations of those files are shallowly
  embedded as executable Lean definitions, and the frozen claims are
  settled as theorems about those definitions.
-/

namespace MCP

/-! ## A small JSON model

Tool dictionaries sent to the model API are Python dicts of strings,
lists and nested dicts.  Objects are insertion-ordered key-value lists,
matching Python dict semantics. -/

inductive Json where
  | str : String → Json
  | arr : List Json → Json
  | obj : List (String × Json) → Json

/-- Python dict lookup on an association list (first matching key). -/
def dictGet {α : Type} (d : List (String × α)) (k : String) : Option α :=
  match d with
  | [] => none
  | (k1, v1) :: rest => if k1 = k then some v1 else dictGet rest k

/-- Python dict assignment d[k] = v: replace in place if the key exists,
append otherwise. -/
def dictUpsert {α : Type} (d : List (String × α)) (k : String) (v : α) :
    List (String × α) :=
  match d with
  | [] => [(k, v)]
  | (k1, v1) :: rest =>
      if k1 = k then (k1, v) :: rest else (k1, v1) :: dictUpsert rest k v

/-- Field access on a JSON object. -/
def jget (j : Json) (k : String) : Option Json :=
  match j with
  | Json.obj fields => dictGet fields k
  | _ => none

/-- Two-level field access on a JSON object. -/
def jget2 (j : Json) (k1 k2 : String) : Option Json :=
  (jget j k1).bind (fun x => jget x k2)

/-- Python str.lower, as a character-wise map over the string data. -/
def pyLower (s : String) : String :=
  ⟨s.data.map Char.toLower⟩

/-- Whether a character list starts with the given pattern. -/
def startsWithChars : List Char → List Char → Bool
  | _, [] => true
  | [], _ :: _ => false
  | c :: cs, p :: ps => c == p && startsWithChars cs ps

/-- Whether a character list has the given pattern as a contiguous
sublist. -/
def hasSub : List Char → List Char → Bool
  | [], pat => pat.isEmpty
  | c :: rest, pat => startsWithChars (c :: rest) pat || hasSub rest pat

/-- Python substring membership pat in s. -/
def strContains (s pat : String) : Bool :=
  hasSub s.data pat.data

/-! ## Data model: tool descriptors

A ToolDescriptor is one tool offered by one server: name, description and
a declared JSON-Schema-like input schema (mcp types.Tool as consumed by
the client code via getattr). -/

structure PropSchema where
  type : Option String := none
  description : Option String := none
deriving DecidableEq

structure InputSchema where
  schemaType : Option String := none
  properties : List (String × PropSchema) := []
  required : Option (List String) := none
deriving DecidableEq

structure ToolDescriptor where
  name : String
  description : String := ""
  inputSchema : Option InputSchema := none
deriving DecidableEq

/-! ## Schema Translator (src/anthropic_client.py, AnthropicClient._format_tool)

The source builds the properties block by string-matching the TOOL NAME
(lowercased) against a fixed set of known names; the declared inputSchema
of the descriptor is never read.  Each emitted property carries a
description and a type string field.  The required list is likewise
chosen from the tool name. -/

/-- One property object as emitted by the source: description plus a
type string marker. -/
def stringProp (desc : String) : Json :=
  Json.obj [("description", Json.str desc), ("type", Json.str "string")]

/-- Properties block chosen by tool name in _format_tool (and in the
minimal_tools loop of AnthropicClient.send_prompt, which emits the same
shape). -/
def format_tool_properties (toolName : String) : List (String × Json) :=
  let n := pyLower toolName
  if n = "list_files" ∨ n = "list_directory" then
    [("directory", stringProp "The directory to list files in")]
  else if n = "read_file" then
    [("file_path", stringProp "Path to the file to read")]
  else if n = "write_file" then
    [("file_path", stringProp "Path to the file to write"),
     ("content", stringProp "Content to write to the file")]
  else
    [("args", stringProp "Arguments for the tool as a JSON string")]

/-- Required list chosen by tool name in _format_tool. -/
def format_tool_required (toolName : String) : List String :=
  let n := pyLower toolName
  if n = "list_files" ∨ n = "list_directory" then ["directory"]
  else if n = "read_file" then ["file_path"]
  else if n = "write_file" then ["file_path", "content"]
  else []

/-- AnthropicClient._format_tool: wraps name, description and the
name-derived parameters block in a custom-typed tool object.  The
declared input schema of the descriptor is not consulted anywhere. -/
def format_tool (t : ToolDescriptor) : Json :=
  Json.obj
    [("type", Json.str "custom"),
     ("custom", Json.obj
       [("name", Json.str t.name),
        ("description", Json.str t.description),
        ("parameters", Json.obj
          [("type", Json.str "object"),
           ("properties", Json.obj (format_tool_properties t.name)),
           ("required",
            Json.arr ((format_tool_required t.name).map Json.str))])])]

/-- The per-tool dictionary built inline by MCPConfigClient.send_prompt
(src/mcp-client.py).  The loop computes schema_params from the declared
inputSchema and a simple_properties block from the tool name, but the
tool_dict it actually appends uses neither: only a custom wrapper with
name and description, with a type key at the wrapper level and no
parameters block at all. -/
def mcp_tool_dict (t : ToolDescriptor) : Json :=
  Json.obj
    [("type", Json.str "custom"),
     ("custom", Json.obj
       [("name", Json.str t.name),
        ("description", Json.str t.description)])]

/-- A concrete descriptor matching the regression scenario of the spec:
a declared schema with a single string property path, required path.
The tool name is not one of the names the source special-cases. -/
def stat_file_tool : ToolDescriptor :=
  { name := "stat_file",
    description := "Report metadata for a path",
    inputSchema := some
      { schemaType := some "object",
        properties := [("path", { type := some "string",
                                  description := some "The path to inspect" })],
        required := some ["path"] } }

/-! ## Server Registry (src/mcp-client.py, MCPConfigClient.load_config)

A configuration document maps server names to command, args, optional
env and optional enabled flag.  load_config iterates the mcpServers
object and stores a StdioServerParameters entry for every server whose
enabled flag (default True) is set. -/

structure StdioServerParameters where
  command : String
  args : List String
  env : Option (List (String × String)) := none
deriving DecidableEq

structure ServerConfig where
  command : String
  args : List String
  env : Option (List (String × String)) := none
  enabled : Option Bool := none
deriving DecidableEq

/-- One iteration of the load_config loop: keep the entry when its
enabled flag defaults to or equals true. -/
def load_config_step (acc : List (String × StdioServerParameters))
    (p : String × ServerConfig) : List (String × StdioServerParameters) :=
  if p.2.enabled.getD true then
    dictUpsert acc p.1 ⟨p.2.command, p.2.args, p.2.env⟩
  else acc

/-- MCPConfigClient.load_config: build the server_params mapping from
the parsed configuration document. -/
def load_config (cfg : List (String × ServerConfig)) :
    List (String × StdioServerParameters) :=
  cfg.foldl load_config_step []

/-! ## Session Manager state (src/mcp-client.py, MCPConfigClient)

The client holds server_params (configured names), sessions (live
protocol sessions keyed by server name), stdio_transports (stored
transport handles keyed by server name) and active_servers.  Only the
name sets matter for the claims; handles themselves are opaque. -/

structure ClientState where
  serverParams : List String
  sessions : List String
  stdioTransports : List String
  activeServers : List String
deriving DecidableEq

/-- Python set or dict-key insertion for an opaque-valued entry. -/
def setAdd (l : List String) (x : String) : List String :=
  if x ∈ l then l else l ++ [x]

/-- Where an attempted connection can fail: at the subprocess spawn
(stdio_client), or later at the session handshake (ClientSession entry
or session.initialize), which happens after the transport handle has
already been stored in stdio_transports. -/
inductive ConnectOutcome where
  | spawnFail
  | handshakeFail
  | ok
deriving DecidableEq

structure ConnectResult where
  success : Bool
  state : ClientState
  spawned : Bool
deriving DecidableEq

/-- MCPConfigClient.connect_to_server.  Unknown servers and servers that
are already connected return without touching any state and without
spawning a transport.  Otherwise the transport is spawned and stored
first; only a successful handshake then registers the session and the
active-set entry.  Every failure path reports False (the source prints
the error and returns False; no exception escapes).  The spawned flag
records whether a subprocess transport was launched by this call. -/
def connect_to_server (s : ClientState) (name : String)
    (outcome : ConnectOutcome) : ConnectResult :=
  if name ∈ s.serverParams then
    if name ∈ s.sessions then ⟨true, s, false⟩
    else
      match outcome with
      | ConnectOutcome.spawnFail => ⟨false, s, false⟩
      | ConnectOutcome.handshakeFail =>
          ⟨false, { s with stdioTransports := setAdd s.stdioTransports name },
           true⟩
      | ConnectOutcome.ok =>
          ⟨true,
           { s with
             stdioTransports := setAdd s.stdioTransports name,
             sessions := setAdd s.sessions name,
             activeServers := setAdd s.activeServers name },
           true⟩
  else ⟨false, s, false⟩

/-- MCPConfigClient.disconnect for one named server.  A name with no
session fails.  Otherwise the session entry is deleted, then the
transport entry, then the active-set entry; a missing transport or
active-set entry raises a caught KeyError and reports False with the
earlier deletions already performed, mirroring the del statements of
the source. -/
def disconnect_one (s : ClientState) (name : String) : Bool × ClientState :=
  if name ∈ s.sessions then
    let sessions1 := s.sessions.erase name
    if name ∈ s.stdioTransports then
      if name ∈ s.activeServers then
        (true,
         { s with
           sessions := sessions1,
           stdioTransports := s.stdioTransports.erase name,
           activeServers := s.activeServers.erase name })
      else
        (false,
         { s with
           sessions := sessions1,
           stdioTransports := s.stdioTransports.erase name })
    else (false, { s with sessions := sessions1 })
  else (false, s)

/-- MCPConfigClient.disconnect.  With no name, a snapshot of the session
keys is taken and each is disconnected in turn with the individual
results ignored, and True is returned; with a name, the single teardown
result is returned. -/
def disconnect (s : ClientState) (serverName : Option String) :
    Bool × ClientState :=
  match serverName with
  | none =>
      (true, s.sessions.foldl (fun st n => (disconnect_one st n).2) s)
  | some n => disconnect_one s n

/-! ## Tool listing (src/mcp-client.py, MCPConfigClient.list_tools)

The behaviour of the downstream session.list_tools call per server is a
parameter: a reachable server yields its tool catalog, an unreachable
one yields an error message.  The result models the returned all_tools
list together with the per-server failure diagnostics the source prints
inside the loop before continuing with the next server. -/

def list_tools_step (behave : String → Except String (List ToolDescriptor))
    (acc : List ToolDescriptor × List (String × String)) (srv : String) :
    List ToolDescriptor × List (String × String) :=
  match behave srv with
  | Except.ok ts => (acc.1 ++ ts, acc.2)
  | Except.error e => (acc.1, acc.2 ++ [(srv, e)])

/-- MCPConfigClient.list_tools.  With no sessions the call returns
nothing.  With a server name, only that catalog is queried.  With no
name, every connected session is queried in turn and failures are
reported per-server without stopping the loop. -/
def list_tools (sessions : List String)
    (behave : String → Except String (List ToolDescriptor))
    (serverName : Option String) :
    List ToolDescriptor × List (String × String) :=
  if sessions.isEmpty then ([], [])
  else
    match serverName with
    | some n =>
        if n ∈ sessions then
          match behave n with
          | Except.ok ts => (ts, [])
          | Except.error e => ([], [(n, e)])
        else ([], [])
    | none => sessions.foldl (list_tools_step behave) ([], [])

/-! ## Tool invocation (src/mcp-client.py, MCPConfigClient.call_tool)

call_tool first requires a connected server, then lists its tools and
resolves the requested name case-insensitively, then validates the
arguments against the required list of the declared input schema, and
only then issues the downstream session.call_tool invocation.  Every
failure branch prints a distinct diagnostic and returns None in the
source; the branches are modelled as distinct result constructors, and
the invoked constructor marks that the downstream call was issued with
the resolved tool name and the given arguments. -/

inductive CallToolResult where
  | noSessions
  | notConnected
  | listToolsFailed (msg : String)
  | toolNotFound (available : List String)
  | missingArguments (missing : List String)
  | invoked (toolName : String) (arguments : List (String × String))
deriving DecidableEq

def call_tool (sessions : List (String × Except String (List ToolDescriptor)))
    (serverName toolName : String) (arguments : List (String × String)) :
    CallToolResult :=
  if sessions.isEmpty then CallToolResult.noSessions
  else
    match dictGet sessions serverName with
    | none => CallToolResult.notConnected
    | some (Except.error e) => CallToolResult.listToolsFailed e
    | some (Except.ok tools) =>
        match tools.find? (fun t => pyLower t.name == pyLower toolName) with
        | none => CallToolResult.toolNotFound (tools.map (fun t => t.name))
        | some tool =>
            match tool.inputSchema with
            | some sch =>
                match sch.required with
                | some req =>
                    let missing :=
                      req.filter (fun a => !((arguments.map Prod.fst).contains a))
                    if missing.isEmpty then
                      CallToolResult.invoked tool.name arguments
                    else CallToolResult.missingArguments missing
                | none => CallToolResult.invoked tool.name arguments
            | none => CallToolResult.invoked tool.name arguments

/-! ## Prompt Orchestrator: per-prompt routing table
(src/mcp-client.py, MCPConfigClient.send_prompt, tool collection loop)

For each requested server name that has a session, the tools of that
server are listed (a failing server contributes nothing) and each tool
name is assigned into one flat dict: server_tool_map[tool_name] =
server_name. -/

def addServerTools (acc : List (String × String)) (srv : String)
    (tools : List String) : List (String × String) :=
  tools.foldl (fun m t => dictUpsert m t srv) acc

def build_server_tool_map_step (sessions : List String)
    (behave : String → Except String (List String))
    (acc : List (String × String)) (srv : String) : List (String × String) :=
  if srv ∈ sessions then
    match behave srv with
    | Except.ok tools => addServerTools acc srv tools
    | Except.error _ => acc
  else acc

/-- The flat per-prompt routing table built by send_prompt. -/
def build_server_tool_map (sessions : List String)
    (behave : String → Except String (List String))
    (contexts : List String) : List (String × String) :=
  contexts.foldl (build_server_tool_map_step sessions behave) []

/-- Specification-side description of what the flat table resolves a
tool name to: the LAST requested server with a session that lists a
tool of that name, if any. -/
def last_owner (sessions : List String)
    (behave : String → Except String (List String))
    (contexts : List String) (q : String) : Option String :=
  contexts.foldl
    (fun acc srv =>
      if srv ∈ sessions then
        match behave srv with
        | Except.ok tools => if q ∈ tools then some srv else acc
        | Except.error _ => acc
      else acc)
    none

/-! ## Prompt Orchestrator: response scan and tool dispatch
(src/mcp-client.py, MCPConfigClient.send_prompt, response handling)

The model response is an ordered list of content blocks, each plain
text or a tool-use block.  A tool-use block yields a tool_call entry
whose server is looked up in the flat routing table.  Each entry whose
server is present and connected leads to one call_tool invocation and
one appended result record (result or error); an entry whose server is
None or not connected appends nothing.  Text blocks pass through in the
returned content unchanged, and the tools list is attached only when a
tool-use block was detected. -/

inductive ContentBlock where
  | text (s : String)
  | toolUse (id name : String) (input : List (String × String))
deriving DecidableEq

def ContentBlock.isToolUse : ContentBlock → Bool
  | ContentBlock.text _ => false
  | ContentBlock.toolUse _ _ _ => true

structure ToolCallEntry where
  id : String
  name : String
  server : Option String
  input : List (String × String)
deriving DecidableEq

inductive ToolOutcome where
  | result (payload : String)
  | error (msg : String)
deriving DecidableEq

structure ToolResultRec where
  id : String
  name : String
  server : Option String
  input : List (String × String)
  outcome : ToolOutcome
deriving DecidableEq

/-- One downstream contact with a server on behalf of a model tool
call. -/
structure Invocation where
  server : String
  tool : String
  input : List (String × String)
deriving DecidableEq

/-- The tool_calls list extracted from the response content, with the
owning server resolved through the flat routing table by name alone. -/
def extract_tool_calls (serverToolMap : List (String × String))
    (content : List ContentBlock) : List ToolCallEntry :=
  content.filterMap
    (fun b =>
      match b with
      | ContentBlock.text _ => none
      | ContentBlock.toolUse i n inp =>
          some ⟨i, n, dictGet serverToolMap n, inp⟩)

/-- The dispatch loop over tool_calls.  Returns the accumulated
tool_results records together with the log of downstream server
contacts. -/
def process_tool_calls (sessions : List String)
    (callToolFn : String → String → List (String × String) → Except String String)
    (calls : List ToolCallEntry) : List ToolResultRec × List Invocation :=
  calls.foldl
    (fun acc c =>
      match c.server with
      | some srv =>
          if srv ∈ sessions then
            match callToolFn srv c.name c.input with
            | Except.ok r =>
                (acc.1 ++ [⟨c.id, c.name, c.server, c.input,
                            ToolOutcome.result r⟩],
                 acc.2 ++ [⟨srv, c.name, c.input⟩])
            | Except.error e =>
                (acc.1 ++ [⟨c.id, c.name, c.server, c.input,
                            ToolOutcome.error e⟩],
                 acc.2 ++ [⟨srv, c.name, c.input⟩])
          else acc
      | none => acc)
    ([], [])

structure SendPromptOutput where
  content : List ContentBlock
  tools : Option (List ToolResultRec)
deriving DecidableEq

/-- The response-handling phase of MCPConfigClient.send_prompt: scan the
content for tool-use blocks, dispatch each routed call, and return the
content unchanged together with the attached tool results and the log
of server contacts. -/
def send_prompt_tool_phase (sessions : List String)
    (serverToolMap : List (String × String))
    (callToolFn : String → String → List (String × String) → Except String String)
    (content : List ContentBlock) : SendPromptOutput × List Invocation :=
  if content.any ContentBlock.isToolUse then
    let r := process_tool_calls sessions callToolFn
      (extract_tool_calls serverToolMap content)
    (⟨content, some r.1⟩, r.2)
  else (⟨content, none⟩, [])

/-! ## Model API request sequences
(src/mcp_ui.py send_prompt and src/mcp-client.py send_prompt)

A request to the model API is characterised here by the tools argument
it carries (None when no tools are passed).  The HTTP send_prompt, on
the path where servers are connected, always issues a preliminary test
request carrying the fixed example tool, then the main request, and on
a failure of the main request falls into the except branch that issues
one more request carrying the minimal tool shape.  The CLI send_prompt
first attempts the request on the async client and, when that attempt
raises, falls back to issuing the same request again through a thread
pool.  Failures of the final attempt are converted to an error result
dictionary rather than raised. -/

/-- The fixed example tool of src/mcp_ui.py (fixed_tool, also reused
verbatim as simplified_tools in the forced test mode): a full custom
wrapper with a parameters block. -/
def fixedListFilesTool : Json :=
  Json.obj
    [("type", Json.str "custom"),
     ("custom", Json.obj
       [("name", Json.str "list_files"),
        ("description", Json.str "List files in a directory"),
        ("parameters", Json.obj
          [("type", Json.str "object"),
           ("properties", Json.obj
             [("directory", Json.obj
               [("description", Json.str "The directory to list files in"),
                ("type", Json.str "string")])]),
           ("required", Json.arr [Json.str "directory"])])])]

/-- The minimal tool of the fallback branch of src/mcp_ui.py
(minimal_tool): name and description only, no parameters block. -/
def minimalListFilesTool : Json :=
  Json.obj
    [("type", Json.str "custom"),
     ("custom", Json.obj
       [("name", Json.str "list_files"),
        ("description", Json.str "List files in a directory")])]

/-- The forced test mode of the HTTP send_prompt: triggered when the
lowercased prompt contains the phrase use list_files. -/
def testToolMode (prompt : String) : Bool :=
  strContains (pyLower prompt) "use list_files"

/-- Tools argument of the main request of the HTTP send_prompt:
simplified_tools in forced test mode, otherwise tools_to_use, which is
the translated tools list or None when it is empty. -/
def ui_main_request_tools (tools : List Json) (prompt : String) :
    Option (List Json) :=
  if testToolMode prompt then some [fixedListFilesTool]
  else if tools.isEmpty then none else some tools

/-- The ordered tools arguments of the model API requests issued by one
HTTP send_prompt call on the connected-servers path, as a function of
the translated tools, the prompt, and whether the main request fails. -/
def ui_send_prompt_requests (tools : List Json) (prompt : String)
    (mainFails : Bool) : List (Option (List Json)) :=
  let testReq : Option (List Json) := some [fixedListFilesTool]
  let mainReq := ui_main_request_tools tools prompt
  if mainFails then [testReq, mainReq, some [minimalListFilesTool]]
  else [testReq, mainReq]

/-- The ordered tools arguments of the model API requests issued by one
CLI send_prompt call, as a function of the tools argument and whether
the first, async, attempt raises. -/
def mcp_send_prompt_requests (toolsArg : Option (List Json))
    (asyncFails : Bool) : List (Option (List Json)) :=
  if asyncFails then [toolsArg, toolsArg] else [toolsArg]

/-! ## Concrete demonstration inputs -/

/-- A read_file tool as offered by a filesystem server, with the
declared schema requiring file_path. -/
def read_file_tool : ToolDescriptor :=
  { name := "read_file",
    description := "Read a file",
    inputSchema := some
      { schemaType := some "object",
        properties := [("file_path", { type := some "string",
                                       description := some "Path to the file to read" })],
        required := some ["file_path"] } }

/-- A configuration document with one enabled-by-default server and one
explicitly disabled server. -/
def demo_config : List (String × ServerConfig) :=
  [("fs", { command := "mcp-fs", args := ["stdio"], env := none, enabled := none }),
   ("net", { command := "mcp-net", args := [], env := none, enabled := some false })]

/-- A model response with one text block and one tool-use block for a
tool name that is absent from the routing table. -/
def ghost_content : List ContentBlock :=
  [ContentBlock.text "hello", ContentBlock.toolUse "t1" "ghost" []]

/-- Two servers that both list a tool named dup. -/
def dup_behave : String → Except String (List String) :=
  fun _ => Except.ok ["dup"]

/-! ## Helper lemmas -/

theorem dictGet_dictUpsert {α : Type} (d : List (String × α)) (k q : String)
    (v : α) :
    dictGet (dictUpsert d k v) q = if q = k then some v else dictGet d q := by
  induction d with
  | nil =>
      by_cases h : q = k
      · simp [dictUpsert, dictGet, h]
      · simp [dictUpsert, dictGet, h, Ne.symm h]
  | cons p rest ih =>
      obtain ⟨k1, v1⟩ := p
      by_cases h1 : k1 = k
      · subst h1
        by_cases h2 : q = k1
        · simp [dictUpsert, dictGet, h2]
        · simp [dictUpsert, dictGet, h2, Ne.symm h2]
      · by_cases h2 : q = k
        · subst h2
          simp [dictUpsert, dictGet, h1, Ne.symm h1, ih]
        · by_cases h3 : k1 = q
          · simp [dictUpsert, dictGet, h1, h2, h3, ih]
          · simp [dictUpsert, dictGet, h1, h2, h3, ih]

theorem mem_setAdd_self (l : List String) (x : String) : x ∈ setAdd l x := by
  unfold setAdd
  split
  · assumption
  · simp

/-- Claim C7: connecting to a server that is already connected returns success
without changing any client state and without spawning a second
transport; hence connect twice in a row equals connect once whenever the
first call succeeded. -/
theorem connect_idempotent (s : ClientState) (name : String)
    (o1 o2 : ConnectOutcome)
    (h : (connect_to_server s name o1).success = true) :
    connect_to_server (connect_to_server s name o1).state name o2 =
      ⟨true, (connect_to_server s name o1).state, false⟩ := by
  unfold connect_to_server at h ⊢
  by_cases hp : name ∈ s.serverParams
  · by_cases hs : name ∈ s.sessions
    · simp [hp, hs]
    · cases o1 with
      | spawnFail => simp [hp, hs] at h
      | handshakeFail => simp [hp, hs] at h
      | ok =>
          simp only [if_pos hp, if_neg hs]
          simp [hp, mem_setAdd_self]
  · simp [hp] at h

/-- Witness for C7 at a concrete configured server. -/
theorem connect_idempotent_witness :
    connect_to_server
        (connect_to_server ⟨["fs"], [], [], []⟩ "fs" ConnectOutcome.ok).state
        "fs" ConnectOutcome.ok =
      ⟨true,
       (connect_to_server ⟨["fs"], [], [], []⟩ "fs" ConnectOutcome.ok).state,
       false⟩ :=
  connect_idempotent ⟨["fs"], [], [], []⟩ "fs" ConnectOutcome.ok
    ConnectOutcome.ok (by decide)

/-- Claim C5: a connect attempt on the configured server fs whose subprocess
spawn succeeds but whose protocol handshake fails reports False (no
ConnectionError is raised anywhere in the source) and leaves the stored
transport handle behind in stdio_transports, while a spawn failure
leaves no state at all; the claimed absence of partial state fails
exactly at the handshake stage. -/
theorem connect_handshake_failure_partial_state :
    connect_to_server ⟨["fs"], [], [], []⟩ "fs" ConnectOutcome.handshakeFail =
      ⟨false, ⟨["fs"], [], ["fs"], []⟩, true⟩
    ∧ "fs" ∈ (connect_to_server ⟨["fs"], [], [], []⟩ "fs"
        ConnectOutcome.handshakeFail).state.stdioTransports
    ∧ "fs" ∉ (connect_to_server ⟨["fs"], [], [], []⟩ "fs"
        ConnectOutcome.handshakeFail).state.sessions
    ∧ connect_to_server ⟨["fs"], [], [], []⟩ "fs" ConnectOutcome.spawnFail =
      ⟨false, ⟨["fs"], [], [], []⟩, false⟩ := by
  decide

/-- Claim C10: disconnect with no server name always reports success, even on
a state with zero connected servers, while disconnect of a specific name
with no session reports failure. -/
theorem disconnect_forms (s : ClientState) (name : String)
    (h : name ∉ s.sessions) :
    (disconnect s none).1 = true ∧ (disconnect s (some name)).1 = false := by
  constructor
  · rfl
  · simp [disconnect, disconnect_one, h]

/-- Witness for C10 on the empty state. -/
theorem disconnect_forms_witness :
    (disconnect ⟨[], [], [], []⟩ none).1 = true
    ∧ (disconnect ⟨[], [], [], []⟩ (some "fs")).1 = false :=
  disconnect_forms ⟨[], [], [], []⟩ "fs" (by decide)

theorem load_config_foldl_untouched (cfg : List (String × ServerConfig))
    (acc : List (String × StdioServerParameters)) (name : String)
    (h : name ∉ cfg.map Prod.fst) :
    dictGet (cfg.foldl load_config_step acc) name = dictGet acc name := by
  induction cfg generalizing acc with
  | nil => rfl
  | cons p rest ih =>
      simp only [List.map_cons, List.mem_cons, not_or] at h
      rw [List.foldl_cons, ih _ h.2]
      unfold load_config_step
      split
      · rw [dictGet_dictUpsert]
        simp [h.1]
      · rfl

theorem load_config_foldl_mem (cfg : List (String × ServerConfig))
    (name : String) (c : ServerConfig)
    (acc : List (String × StdioServerParameters))
    (hmem : (name, c) ∈ cfg) (hnodup : (cfg.map Prod.fst).Nodup) :
    dictGet (cfg.foldl load_config_step acc) name =
      if c.enabled.getD true then some ⟨c.command, c.args, c.env⟩
      else dictGet acc name := by
  induction cfg generalizing acc with
  | nil => cases hmem
  | cons p rest ih =>
      simp only [List.map_cons, List.nodup_cons] at hnodup
      rcases List.mem_cons.mp hmem with heq | hmem2
      · have hp : p = (name, c) := heq.symm
        subst hp
        rw [List.foldl_cons,
            load_config_foldl_untouched rest _ name (by simpa using hnodup.1)]
        unfold load_config_step
        split
        · rw [dictGet_dictUpsert]
          simp_all
        · simp_all
      · have hkey : name ∈ rest.map Prod.fst := by
          exact List.mem_map_of_mem Prod.fst hmem2
        have hne : name ≠ p.1 := fun he => hnodup.1 (he ▸ hkey)
        have hstep : dictGet (load_config_step acc p) name = dictGet acc name := by
          unfold load_config_step
          split
          · rw [dictGet_dictUpsert]
            simp [hne]
          · rfl
        rw [List.foldl_cons, ih _ hmem2 hnodup.2, hstep]

/-- Claim C9: loading a configuration document with pairwise distinct server
names excludes every entry whose enabled flag is false and includes
every entry with no enabled flag. -/
theorem load_config_enabled (cfg : List (String × ServerConfig))
    (name : String) (c : ServerConfig)
    (hmem : (name, c) ∈ cfg) (hnodup : (cfg.map Prod.fst).Nodup) :
    (c.enabled = some false → dictGet (load_config cfg) name = none)
    ∧ (c.enabled = none →
        dictGet (load_config cfg) name = some ⟨c.command, c.args, c.env⟩) := by
  unfold load_config
  rw [load_config_foldl_mem cfg name c [] hmem hnodup]
  constructor
  · intro he
    simp [he, dictGet]
  · intro he
    simp [he]

/-- Witness for C9 on the demonstration configuration. -/
theorem load_config_enabled_witness :
    dictGet (load_config demo_config) "net" = none
    ∧ dictGet (load_config demo_config) "fs" =
        some ⟨"mcp-fs", ["stdio"], none⟩ :=
  ⟨(load_config_enabled demo_config "net"
      ⟨"mcp-net", [], none, some false⟩ (by decide) (by decide)).1 rfl,
   (load_config_enabled demo_config "fs"
      ⟨"mcp-fs", ["stdio"], none, none⟩ (by decide) (by decide)).2 rfl⟩

theorem list_tools_foldl (behave : String → Except String (List ToolDescriptor))
    (l : List String) (acc : List ToolDescriptor × List (String × String)) :
    l.foldl (list_tools_step behave) acc =
      (acc.1 ++ (l.map (fun s =>
          match behave s with
          | Except.ok ts => ts
          | Except.error _ => [])).flatten,
       acc.2 ++ l.filterMap (fun s =>
          match behave s with
          | Except.error e => some (s, e)
          | Except.ok _ => none)) := by
  induction l generalizing acc with
  | nil => simp
  | cons srv rest ih =>
      rw [List.foldl_cons, ih]
      unfold list_tools_step
      cases hb : behave srv <;> simp [hb]

/-- Claim C8: listing tools over all active connections returns the
concatenation of the catalogs of exactly the reachable servers, in
session order, and pairs it with one reported failure per unreachable
server; failures never abort the listing of the remaining servers. -/
theorem list_tools_partial_success (sessions : List String)
    (behave : String → Except String (List ToolDescriptor)) :
    list_tools sessions behave none =
      ((sessions.map (fun s =>
          match behave s with
          | Except.ok ts => ts
          | Except.error _ => [])).flatten,
       sessions.filterMap (fun s =>
          match behave s with
          | Except.error e => some (s, e)
          | Except.ok _ => none)) := by
  unfold list_tools
  cases sessions with
  | nil => simp
  | cons a l =>
      rw [if_neg (by simp)]
      rw [list_tools_foldl]
      simp

/-- Claim C6: when the resolved tool declares a required list and the
arguments leave at least one required property unbound, call_tool
reports the missing-arguments failure naming exactly the required
properties absent from the arguments, and the downstream invocation is
never issued. -/
theorem call_tool_missing_arguments
    (sessions : List (String × Except String (List ToolDescriptor)))
    (serverName toolName : String) (arguments : List (String × String))
    (tools : List ToolDescriptor) (tool : ToolDescriptor)
    (sch : InputSchema) (req : List String)
    (hs : dictGet sessions serverName = some (Except.ok tools))
    (hf : tools.find? (fun t => pyLower t.name == pyLower toolName) = some tool)
    (hsch : tool.inputSchema = some sch)
    (hreq : sch.required = some req)
    (hmiss : req.filter (fun a => !((arguments.map Prod.fst).contains a)) ≠ []) :
    call_tool sessions serverName toolName arguments =
      CallToolResult.missingArguments
        (req.filter (fun a => !((arguments.map Prod.fst).contains a)))
    ∧ (∀ a, a ∈ req.filter (fun a => !((arguments.map Prod.fst).contains a)) ↔
        (a ∈ req ∧ (arguments.map Prod.fst).contains a = false))
    ∧ (∀ tn args2, call_tool sessions serverName toolName arguments ≠
        CallToolResult.invoked tn args2) := by
  have hempty : sessions.isEmpty = false := by
    cases sessions with
    | nil => simp [dictGet] at hs
    | cons p rest => rfl
  have hfe : (req.filter
      (fun a => !((arguments.map Prod.fst).contains a))).isEmpty = false := by
    cases hc : req.filter (fun a => !((arguments.map Prod.fst).contains a)) with
    | nil => exact absurd hc hmiss
    | cons x xs => rfl
  have hmain : call_tool sessions serverName toolName arguments =
      CallToolResult.missingArguments
        (req.filter (fun a => !((arguments.map Prod.fst).contains a))) := by
    unfold call_tool
    rw [hempty]
    simp only [Bool.false_eq_true, if_false, hs, hf, hsch, hreq, hfe]
  refine ⟨hmain, ?_, ?_⟩
  · intro a
    simp [List.mem_filter]
  · intro tn args2
    rw [hmain]
    simp

/-- Witness for C6: calling read_file on the connected server fs with
empty arguments reports exactly the missing property file_path. -/
theorem call_tool_missing_arguments_witness :
    call_tool [("fs", Except.ok [read_file_tool])] "fs" "read_file" [] =
      CallToolResult.missingArguments ["file_path"] := by
  have h := call_tool_missing_arguments
    [("fs", Except.ok [read_file_tool])] "fs" "read_file" []
    [read_file_tool] read_file_tool
    { schemaType := some "object",
      properties := [("file_path", { type := some "string",
                                     description := some "Path to the file to read" })],
      required := some ["file_path"] }
    ["file_path"] rfl rfl rfl rfl (by decide)
  exact h.1

/-- Claim C1: translating the descriptor stat_file_tool, whose declared
schema requires the single string property path, yields a parameter
block driven by the tool NAME fallback instead of the declared schema:
its properties block holds only the generic args property, its required
list is empty rather than the declared one, and a type key occurs
inside the args property in addition to the object marker; the inline
translation of MCPConfigClient.send_prompt drops the parameters block
entirely while keeping a type key at the tool wrapper level. -/
theorem format_tool_ignores_declared_schema :
    jget2 (format_tool stat_file_tool) "custom" "parameters" =
      some (Json.obj
        [("type", Json.str "object"),
         ("properties", Json.obj
           [("args", Json.obj
             [("description", Json.str "Arguments for the tool as a JSON string"),
              ("type", Json.str "string")])]),
         ("required", Json.arr [])])
    ∧ ((jget2 (format_tool stat_file_tool) "custom" "parameters").bind
        (fun p => jget2 p "properties" "args")).bind
        (fun a => jget a "type") = some (Json.str "string")
    ∧ jget2 (mcp_tool_dict stat_file_tool) "custom" "parameters" = none
    ∧ jget (mcp_tool_dict stat_file_tool) "type" = some (Json.str "custom") :=
  ⟨rfl, rfl, rfl, rfl⟩

/-- Claim C2: on a model response with one text block and one tool-use block
for the unroutable name ghost, the response-handling phase of
send_prompt returns the text content unchanged and contacts no server,
but attaches an EMPTY tool-results list: the unroutable call, although
extracted with server None, is silently dropped instead of being
returned as a record carrying a routing error. -/
theorem send_prompt_drops_unroutable_record :
    extract_tool_calls [("read_file", "fs")] ghost_content =
      [⟨"t1", "ghost", none, []⟩]
    ∧ send_prompt_tool_phase ["fs"] [("read_file", "fs")]
        (fun _ _ _ => Except.ok "file contents") ghost_content =
      (⟨ghost_content, some []⟩, []) :=
  ⟨rfl, rfl⟩

/-- Claim C3 counterexample: when the selected servers A and B both list a
tool named dup, the per-prompt routing table is a flat name-keyed map
holding the single entry dup to B, and a model-issued call for dup is
dispatched to B, the server registered last, with no (server, name)
disambiguation that could ever reach A. -/
theorem server_tool_map_collision :
    build_server_tool_map ["A", "B"] dup_behave ["A", "B"] = [("dup", "B")]
    ∧ (send_prompt_tool_phase ["A", "B"]
        (build_server_tool_map ["A", "B"] dup_behave ["A", "B"])
        (fun _ _ _ => Except.ok "ok")
        [ContentBlock.toolUse "t1" "dup" []]).2 = [⟨"B", "dup", []⟩] :=
  ⟨rfl, rfl⟩

theorem dictGet_addServerTools (acc : List (String × String)) (srv : String)
    (tools : List String) (q : String) :
    dictGet (addServerTools acc srv tools) q =
      if q ∈ tools then some srv else dictGet acc q := by
  induction tools generalizing acc with
  | nil => simp [addServerTools]
  | cons t ts ih =>
      unfold addServerTools at ih ⊢
      rw [List.foldl_cons, ih]
      by_cases h1 : q ∈ ts
      · simp [h1]
      · rw [dictGet_dictUpsert]
        by_cases h2 : q = t <;> simp [h1, h2]

theorem server_tool_map_foldl (sessions : List String)
    (behave : String → Except String (List String))
    (contexts : List String) (d : List (String × String)) (q : String) :
    dictGet (contexts.foldl (build_server_tool_map_step sessions behave) d) q =
      contexts.foldl
        (fun acc srv =>
          if srv ∈ sessions then
            match behave srv with
            | Except.ok tools => if q ∈ tools then some srv else acc
            | Except.error _ => acc
          else acc)
        (dictGet d q) := by
  induction contexts generalizing d with
  | nil => rfl
  | cons srv rest ih =>
      rw [List.foldl_cons, List.foldl_cons, ih]
      congr 1
      unfold build_server_tool_map_step
      by_cases hm : srv ∈ sessions
      · cases hb : behave srv with
        | ok tools => simp [hm, hb, dictGet_addServerTools]
        | error e => simp [hm, hb]
      · simp [hm]

/-- Claim C3 as amended: the routing table built per prompt resolves a
model-issued tool name by name alone, to the LAST selected connected
server whose catalog lists that name (last-write-wins in a flat map),
not by (server, name) pairs. -/
theorem server_tool_map_last_write_wins (sessions : List String)
    (behave : String → Except String (List String))
    (contexts : List String) (q : String) :
    dictGet (build_server_tool_map sessions behave contexts) q =
      last_owner sessions behave contexts q := by
  unfold build_server_tool_map last_owner
  rw [server_tool_map_foldl]
  rfl

/-- Claim C4 counterexample: with no translated tools and an ordinary prompt,
the HTTP send_prompt issues two model API requests even when nothing
fails (a preliminary test request carrying the fixed example tool, then
the main request), and when the main request fails it issues a third,
automatic fallback request carrying the minimal tool shape, which
differs from the shape of the main request; the CLI send_prompt issues
the request a second time through the thread pool when the async
attempt fails. -/
theorem send_prompt_not_single_request :
    (ui_send_prompt_requests [] "read the changelog" false).length = 2
    ∧ ui_send_prompt_requests [] "read the changelog" true =
        [some [fixedListFilesTool], none, some [minimalListFilesTool]]
    ∧ mcp_send_prompt_requests none true = [none, none] :=
  ⟨rfl, rfl, rfl⟩

/-- Claim C4 as amended: every HTTP send_prompt call on the connected-servers
path issues the fixed-example test request first and then the main
request, and a failing main request is always followed by one automatic
fallback request carrying the minimal tool shape, so the number of
model API requests is two on success and three on failure, never one;
the CLI path issues one request on success and two when the async
attempt fails. -/
theorem send_prompt_request_sequence (tools : List Json) (prompt : String)
    (mainFails : Bool) (toolsArg : Option (List Json)) (asyncFails : Bool) :
    (ui_send_prompt_requests tools prompt mainFails).length =
      (if mainFails then 3 else 2)
    ∧ (ui_send_prompt_requests tools prompt mainFails).head? =
        some (some [fixedListFilesTool])
    ∧ (mainFails = true →
        (ui_send_prompt_requests tools prompt mainFails).getLast? =
          some (some [minimalListFilesTool]))
    ∧ (mcp_send_prompt_requests toolsArg asyncFails).length =
        (if asyncFails then 2 else 1) := by
  cases mainFails <;> cases asyncFails <;>
    refine ⟨rfl, rfl, ?_, rfl⟩ <;> intro h
  · cases h
  · cases h
  · rfl
  · rfl

/-- Witness for the amended claim C4 at a concrete prompt with the main request
failing. -/
theorem send_prompt_request_sequence_witness :
    (ui_send_prompt_requests [] "hello" true).length = 3
    ∧ (ui_send_prompt_requests [] "hello" true).getLast? =
        some (some [minimalListFilesTool]) := by
  have h := send_prompt_request_sequence [] "hello" true none true
  exact ⟨h.1, h.2.2.1 rfl⟩

end MCP
